import Mathlib

/-!
Shallow embedding of the vector-field processing pipeline of the
`video_flow_cfd_tool` repository (frame extraction, flow aggregation,
arrow rendering, ROI selection and clip trimming), together with proofs
of the behavioural properties stated in the specification.

Numbers computed by the JavaScript source with IEEE doubles are modelled
exactly over `ℚ`; fallible code is modelled with `Except`.
-/

namespace VideoFlowCfd

/-- A velocity vector, `src/types` `Vector { u, v }`
(components modelled over `ℚ`). -/
structure Vec where
  u : ℚ
  v : ℚ
deriving DecidableEq, Repr

/-- The zero velocity `{u: 0, v: 0}` used to initialise the accumulator in
`calculateFlowAndGenerateFiles` (src/services/cfdCalculator.ts line 235). -/
def vzero : Vec := ⟨0, 0⟩

/-- Component-wise sum of two velocity vectors, as computed cell by cell in
the accumulation loop of `calculateFlowAndGenerateFiles` (lines 240-243). -/
def vadd (a b : Vec) : Vec := ⟨a.u + b.u, a.v + b.v⟩

/-- Squared magnitude `u*u + v*v` of a velocity vector.  The source
(src/components/VectorFieldDisplay.tsx line 120) computes
`Math.sqrt(vec.u*vec.u + vec.v*vec.v)`; comparisons of magnitudes are
modelled by the equivalent comparisons of squared magnitudes, which keeps
the development inside `ℚ`. -/
def mag2 (a : Vec) : ℚ := a.u * a.u + a.v * a.v

/-- `grid[y][x]` access on a 2D velocity array.  All accesses performed by
the source are within the bounds of a validated `gridHeight × gridWidth`
grid, where the `vzero` default is never used. -/
def gridGet (g : List (List Vec)) (y x : ℕ) : Vec := (g.getD y []).getD x vzero

/-- Errors thrown by `src/services/cfdCalculator.ts`.  The specification
names them `InsufficientFramesError` (thrown with a user-facing message,
line 222) and `MalformedEstimateError` (thrown with the expected and actual
vector counts, line 110). -/
inductive CalcError where
  | insufficientFrames (msg : String)
  | malformedEstimate (expected actual : ℕ)
deriving DecidableEq, Repr

/-- The message of the `InsufficientFramesError` thrown by
`calculateFlowAndGenerateFiles` (src/services/cfdCalculator.ts line 222). -/
def insufficientFramesMsg : String :=
  "Not enough frames extracted to perform analysis. Please select a longer clip."

/-- Row-major reshaping of the flat estimator result into a
`gridHeight × gridWidth` grid: `grid.push(flatVectors.slice(i*gridWidth,
(i+1)*gridWidth))` for `i = 0 .. gridHeight-1`
(src/services/cfdCalculator.ts lines 113-116). -/
def reshape (flat : List Vec) (gw gh : ℕ) : List (List Vec) :=
  (List.range gh).map (fun i => (flat.drop (i * gw)).take gw)

/-- Validation and reshaping step of `calculateVectorField`
(src/services/cfdCalculator.ts lines 105-117): `flat` is the flat vector
array returned by the external estimator for one frame pair; a length
other than `gridWidth*gridHeight` throws, otherwise the row-major grid is
returned. -/
def calculateVectorField (flat : List Vec) (gw gh : ℕ) :
    Except CalcError (List (List Vec)) :=
  if flat.length ≠ gw * gh then
    .error (.malformedEstimate (gw * gh) flat.length)
  else
    .ok (reshape flat gw gh)

/-- The sequential per-pair estimation loop of
`calculateFlowAndGenerateFiles` (src/services/cfdCalculator.ts lines
227-232), applied to the list of flat estimator results for the
consecutive frame pairs: the first malformed result aborts the loop and
its error propagates. -/
def runPairs (gw gh : ℕ) : List (List Vec) → Except CalcError (List (List (List Vec)))
  | [] => .ok []
  | flat :: rest =>
    match calculateVectorField flat gw gh with
    | .error e => .error e
    | .ok g =>
      match runPairs gw gh rest with
      | .error e => .error e
      | .ok gs => .ok (g :: gs)

/-- The consecutive frame pairs `(frames[i], frames[i+1])`,
`i = 0 .. frames.length-2`, visited by the loop at
src/services/cfdCalculator.ts line 228. -/
def pairsOf {F : Type} (frames : List F) : List (F × F) := frames.zip frames.tail

/-- The zero-filled `gridHeight × gridWidth` accumulator
`Array(gridHeight).fill(0).map(() => Array(gridWidth).fill({u:0,v:0}))`
(src/services/cfdCalculator.ts line 235). -/
def zeroGrid (gh gw : ℕ) : List (List Vec) :=
  (List.range gh).map (fun _ => (List.range gw).map (fun _ => vzero))

/-- One pass of the accumulation loop (src/services/cfdCalculator.ts lines
237-246): every cell of the `gridHeight × gridWidth` accumulator `acc` is
replaced by its component-wise sum with the corresponding cell of
`field`. -/
def addGrid (gh gw : ℕ) (acc field : List (List Vec)) : List (List Vec) :=
  (List.range gh).map (fun y =>
    (List.range gw).map (fun x => vadd (gridGet acc y x) (gridGet field y x)))

/-- The final division loop (src/services/cfdCalculator.ts lines 248-255):
every cell of the accumulated grid is divided component-wise by the number
`n` of per-pair fields. -/
def divideGrid (gh gw : ℕ) (n : ℕ) (acc : List (List Vec)) : List (List Vec) :=
  (List.range gh).map (fun y =>
    (List.range gw).map (fun x =>
      ⟨(gridGet acc y x).u / (n : ℚ), (gridGet acc y x).v / (n : ℚ)⟩))

/-- The averaging step of `calculateFlowAndGenerateFiles`
(src/services/cfdCalculator.ts lines 234-255): element-wise vector sum of
all per-pair grids followed by division of every cell by the pair
count. -/
def averageFields (gh gw : ℕ) (fields : List (List (List Vec))) : List (List Vec) :=
  divideGrid gh gw fields.length (fields.foldl (addGrid gh gw) (zeroGrid gh gw))

/-- The flat estimator results for the consecutive frame pairs, in the
order the loop at src/services/cfdCalculator.ts line 228 requests
them. -/
def estimatesOf {F : Type} (frames : List F) (est : F → F → List Vec) : List (List Vec) :=
  (pairsOf frames).map (fun p => est p.1 p.2)

/-- The flow aggregation of `calculateFlowAndGenerateFiles`
(src/services/cfdCalculator.ts lines 221-255), with the external flow
estimator injected as `est` (the flat array it returns for a frame pair):
requires at least 2 frames, estimates every consecutive pair sequentially,
validates and reshapes each result, and averages the per-pair grids. -/
def aggregate {F : Type} (frames : List F) (gw gh : ℕ)
    (est : F → F → List Vec) : Except CalcError (List (List Vec)) :=
  if frames.length < 2 then
    .error (.insufficientFrames insufficientFramesMsg)
  else
    match runPairs gw gh (estimatesOf frames est) with
    | .error e => .error e
    | .ok fields => .ok (averageFields gh gw fields)

/-- Equality of `Except` results is decidable when both components are. -/
instance {ε α : Type _} [DecidableEq ε] [DecidableEq α] : DecidableEq (Except ε α) := fun a b =>
  match a, b with
  | .error x, .error y =>
    if h : x = y then .isTrue (by rw [h]) else .isFalse (by simp [h])
  | .ok x, .ok y =>
    if h : x = y then .isTrue (by rw [h]) else .isFalse (by simp [h])
  | .error _, .ok _ => .isFalse (by simp)
  | .ok _, .error _ => .isFalse (by simp)

/-- A normalized region of interest `{x, y, width, height}`, all fields
fractions of the source frame (src/components/VideoTrimmer.tsx line 4). -/
structure ROI where
  x : ℚ
  y : ℚ
  width : ℚ
  height : ℚ
deriving DecidableEq, Repr

/-- One frame captured by `extractFrames` (src/services/cfdCalculator.ts
lines 34-47), recorded as the seek time together with the source-pixel
rectangle `(sx, sy, sWidth, sHeight)` that was drawn to the canvas: the
full frame when `roi` is null, the ROI scaled by the video dimensions
otherwise. -/
structure Capture where
  time : ℚ
  sx : ℚ
  sy : ℚ
  sw : ℚ
  sh : ℚ
deriving DecidableEq, Repr

/-- The source-pixel crop rectangle of `extractFrames`
(src/services/cfdCalculator.ts lines 35-38): `(0, 0, videoWidth,
videoHeight)` without an ROI, `(roi.x*videoWidth, roi.y*videoHeight,
roi.width*videoWidth, roi.height*videoHeight)` with one. -/
def cropRect (vw vh : ℚ) (roi : Option ROI) : ℚ × ℚ × ℚ × ℚ :=
  match roi with
  | none => (0, 0, vw, vh)
  | some r => (r.x * vw, r.y * vh, r.width * vw, r.height * vh)

/-- Number of frames captured by the seek loop of `extractFrames`
(src/services/cfdCalculator.ts lines 27-53): the loop captures at times
`startTime + k/30` for `k = 0, 1, ...` while that time is `< endTime`,
so the count is `⌈(endTime - startTime) * 30⌉` (0 when the interval is
empty). -/
def framesCount (startTime endTime : ℚ) : ℕ := (⌈(endTime - startTime) * 30⌉).toNat

/-- The frame sequence produced by `extractFrames`
(src/services/cfdCalculator.ts lines 11-58): one capture per seek
position `startTime + k/30 < endTime`, each cropped to the ROI rectangle
in source pixel space (or to the full frame when `roi` is null). -/
def extractFrames (vw vh startTime endTime : ℚ) (roi : Option ROI) : List Capture :=
  (List.range (framesCount startTime endTime)).map (fun k =>
    ⟨startTime + (k : ℚ) * (1 / 30), (cropRect vw vh roi).1, (cropRect vw vh roi).2.1,
      (cropRect vw vh roi).2.2.1, (cropRect vw vh roi).2.2.2⟩)

/-- The orchestration `calculateFlowAndGenerateFiles`
(src/services/cfdCalculator.ts lines 206-267), restricted to the velocity
data: it first captures the preview frame by extracting the single frame
at `startTime` with `roi = null` (line 216), then extracts the analysis
frames with the requested ROI, aggregates them, and returns the averaged
grid paired with the preview frame.  (The OpenFOAM text formatting of the
result is pure string templating and is out of the claims' scope.) -/
def calculateFlowAndGenerateFiles (vw vh startTime endTime : ℚ) (roi : Option ROI)
    (gw gh : ℕ) (est : Capture → Capture → List Vec) :
    Except CalcError (List (List Vec) × Capture) :=
  let preview := (extractFrames vw vh startTime (startTime + 1 / 30) none).getD 0 ⟨0, 0, 0, 0, 0⟩
  let frames := extractFrames vw vh startTime endTime roi
  match aggregate frames gw gh est with
  | .error e => .error e
  | .ok grid => .ok (grid, preview)

/-! ### Vector (quiver) renderer, src/components/VectorFieldDisplay.tsx -/

/-- Modelled from the spec: the constant `GRID_WIDTH` is declared in
`constants.ts`, which is absent from the sources (only its imports
appear, e.g. src/components/VectorFieldDisplay.tsx line 3).  It is the
app-wide default grid width; the spec's observed grid-width range is
10-40 and the default vector density is `GRID_WIDTH / 2`.  Its numeric
value is not recorded in the spec; it is fixed here at 20, inside the
observed range.  Every statement below that rests on this constant fails
for the same reason at any other admissible value, because the renderer's
stride never consults the rendered grid's own width. -/
def GRID_WIDTH : ℚ := 20

/-- JavaScript `Math.round`: rounds to the nearest integer, halves toward
positive infinity. -/
def jsRound (q : ℚ) : ℤ := ⌊q + 1 / 2⌋

/-- The stride of the vector renderer,
`Math.max(1, Math.round(GRID_WIDTH / density))`
(src/components/VectorFieldDisplay.tsx line 129).  Note that the numerator
is the app-level constant `GRID_WIDTH`, not the rendered grid's width. -/
def vectorStep (density : ℚ) : ℤ := max 1 (jsRound (GRID_WIDTH / density))

/-- The stride asserted by the specification's reading of the claim:
`max(1, round(gridWidth / density))` where `gridWidth` is the width of
the grid being rendered.  Kept separate from `vectorStep` so that the two
can be compared. -/
def claimedStep (gridWidth density : ℚ) : ℤ := max 1 (jsRound (gridWidth / density))

/-- Squared near-zero threshold: the renderer skips cells with
`magnitude < 1e-6` (src/components/VectorFieldDisplay.tsx line 139);
compared on squared magnitudes this is `mag2 < (1e-6)^2`. -/
def eps2 : ℚ := 1 / 1000000000000

/-- The indices visited by a `for (let k = 0; k < bound; k += step)` loop
with `step ≥ 1`: the multiples of `step` below `bound`. -/
def strideIdx (bound step : ℕ) : List ℕ :=
  (List.range bound).filter (fun k => k % step = 0)

/-- The cells for which the vector renderer draws an arrow
(src/components/VectorFieldDisplay.tsx lines 134-171): both loop indices
advance by `vectorStep density`, and a visited cell is skipped when its
magnitude is below the 1e-6 near-zero threshold.  The grid dimensions are
`vectorField.length` and `vectorField[0].length` (lines 111-112). -/
def drawnCells (grid : List (List Vec)) (density : ℚ) : List (ℕ × ℕ) :=
  (strideIdx grid.length (vectorStep density).toNat).flatMap (fun y =>
    (strideIdx (grid.headD []).length (vectorStep density).toNat).filterMap (fun x =>
      if mag2 (gridGet grid y x) < eps2 then none else some (y, x)))

/-- The cells the claim predicts the renderer draws: stride computed from
the rendered grid's own width, arrows only for magnitudes strictly above
the 1e-6 threshold.  Kept separate from `drawnCells` so that the two can
be compared. -/
def claimedDrawnCells (grid : List (List Vec)) (density : ℚ) : List (ℕ × ℕ) :=
  (strideIdx grid.length (claimedStep ((grid.headD []).length : ℚ) density).toNat).flatMap
    (fun y =>
      (strideIdx (grid.headD []).length
          (claimedStep ((grid.headD []).length : ℚ) density).toNat).filterMap (fun x =>
        if mag2 (gridGet grid y x) > eps2 then some (y, x) else none))

/-- The maximum squared magnitude over all cells of the grid, computed by
the nested scan at src/components/VectorFieldDisplay.tsx lines 116-125.
The source tracks the maximum of `Math.sqrt(u*u + v*v)`; since the square
root is monotone on nonnegative inputs, the maximum it computes is the
square root of this quantity, and its `=== 0` test (line 126) holds
exactly when this quantity is 0. -/
def maxMag2 (grid : List (List Vec)) : ℚ :=
  grid.foldl (fun m row => row.foldl (fun m v => max m (mag2 v)) m) 0

/-- The normalization divisor actually used, after the all-zero default of
src/components/VectorFieldDisplay.tsx line 126
(`if (maxMagnitude === 0) maxMagnitude = 1`), on squared magnitudes. -/
def effectiveMaxMag2 (grid : List (List Vec)) : ℚ :=
  if maxMag2 grid = 0 then 1 else maxMag2 grid

/-! ### ROI selection, src/components/VideoTrimmer.tsx -/

/-- The ROI state transition performed by `handleMouseUp` of `ROILayer`
(src/components/VideoTrimmer.tsx lines 59-65) at the end of a drag:
`setRoi(currentRect)` runs only when the drawn rectangle's width and
height both exceed 0.01; otherwise the ROI state is left as it was. -/
def roiAfterMouseUp (prior : Option ROI) (currentRect : Option ROI) : Option ROI :=
  match currentRect with
  | some r => if r.width > 1 / 100 ∧ r.height > 1 / 100 then some r else prior
  | none => prior

/-! ### Clip trimming, src/components/VideoTrimmer.tsx, and the
calculation entry point `handleCalculation` (App component,
src/unnamed/part_000 lines 34-38) -/

/-- Modelled from the spec: `MAX_CLIP_DURATION_S` is declared in
`constants.ts`, which is absent from the sources.  The repository's
README (src/unnamed/part_003) fixes the maximum selectable clip length at
5 seconds ("select a clip of up to 5 seconds", "no more than 5
seconds"). -/
def MAX_CLIP_DURATION_S : ℚ := 5

/-- The clip-selection state of `VideoTrimmer`
(src/components/VideoTrimmer.tsx lines 98-99). -/
structure ClipState where
  startTime : ℚ
  endTime : ℚ
deriving DecidableEq, Repr

/-- `handleStartTimeChange` (src/components/VideoTrimmer.tsx lines
124-132): a new start at or past the current end is ignored; otherwise the
start moves, and if the clip would exceed `MAX_CLIP_DURATION_S` the end is
pulled back to `min(duration, newStart + MAX_CLIP_DURATION_S)`. -/
def handleStartTimeChange (duration : ℚ) (st : ClipState) (newStart : ℚ) : ClipState :=
  if newStart < st.endTime then
    { startTime := newStart
      endTime :=
        if st.endTime - newStart > MAX_CLIP_DURATION_S then
          min duration (newStart + MAX_CLIP_DURATION_S)
        else st.endTime }
  else st

/-- `handleEndTimeChange` (src/components/VideoTrimmer.tsx lines 134-142):
a new end at or before the current start is ignored; otherwise the end
moves, and if the clip would exceed `MAX_CLIP_DURATION_S` the start is
pushed forward to `max(0, newEnd - MAX_CLIP_DURATION_S)`. -/
def handleEndTimeChange (st : ClipState) (newEnd : ℚ) : ClipState :=
  if newEnd > st.startTime then
    { startTime :=
        if newEnd - st.startTime > MAX_CLIP_DURATION_S then
          max 0 (newEnd - MAX_CLIP_DURATION_S)
        else st.startTime
      endTime := newEnd }
  else st

/-- The invariant maintained by the clip-selection state: a nonempty clip
inside the video that does not exceed the maximum duration. -/
def clipInvariant (duration : ℚ) (st : ClipState) : Prop :=
  0 ≤ st.startTime ∧ st.startTime < st.endTime ∧ st.endTime ≤ duration ∧
    st.endTime - st.startTime ≤ MAX_CLIP_DURATION_S

/-- The validation message of `handleCalculation`
(src/unnamed/part_000 line 36), with `MAX_CLIP_DURATION_S = 5`
interpolated. -/
def clipDurationErrorMsg : String := "Clip duration must be between 0 and 5 seconds."

/-- The guard of the calculation entry point `handleCalculation`
(src/unnamed/part_000 lines 34-38): a request whose duration is `≤ 0` or
`> MAX_CLIP_DURATION_S` is rejected with an error message and the
calculation never starts; otherwise (`none`) the request proceeds. -/
def handleCalculationGuard (startTime endTime : ℚ) : Option String :=
  if endTime - startTime ≤ 0 ∨ endTime - startTime > MAX_CLIP_DURATION_S then
    some clipDurationErrorMsg
  else none

/-! ### Event model of the `extractFrames` promise,
src/services/cfdCalculator.ts lines 19-57 -/

/-- Events observable by the pending `extractFrames` promise: the frame
source fires `seeked` after a successful seek, or time merely passes
(`tick`) with the source never becoming ready. -/
inductive SeekEvent where
  | seeked
  | tick
deriving DecidableEq, Repr

/-- The run state of one `extractFrames` promise: the current seek
position, the frames captured so far, and the settled resolution value
(`none` while the promise is still pending; the code's only `reject` is
for a missing canvas context, which is not reachable in this model, so a
settled promise always carries the captured frames). -/
structure ExtractRun where
  currentTime : ℚ
  frames : List Capture
  settled : Option (List Capture)
deriving DecidableEq, Repr

/-- The initial state of the promise: the seek position has been set to
`startTime` (src/services/cfdCalculator.ts line 25) and nothing has been
captured or resolved. -/
def initExtractRun (startTime : ℚ) : ExtractRun := ⟨startTime, [], none⟩

/-- The `onSeeked` handler (src/services/cfdCalculator.ts lines 27-53):
when the seek position has reached `endTime` the promise resolves with
the captured frames; otherwise the visible frame is captured (cropped per
the ROI) and the seek position advances by 1/30. -/
def onSeeked (vw vh endTime : ℚ) (roi : Option ROI) (st : ExtractRun) : ExtractRun :=
  match st.settled with
  | some _ => st
  | none =>
    if st.currentTime ≥ endTime then
      { st with settled := some st.frames }
    else
      { currentTime := st.currentTime + 1 / 30
        frames := st.frames ++
          [⟨st.currentTime, (cropRect vw vh roi).1, (cropRect vw vh roi).2.1,
            (cropRect vw vh roi).2.2.1, (cropRect vw vh roi).2.2.2⟩]
        settled := none }

/-- One event step of the pending promise.  The code installs a handler
only for the `seeked` event (src/services/cfdCalculator.ts line 55); no
timer, timeout or cancellation is ever registered, so the passage of time
(`tick`) changes nothing. -/
def extractEventStep (vw vh endTime : ℚ) (roi : Option ROI)
    (st : ExtractRun) (ev : SeekEvent) : ExtractRun :=
  match ev with
  | .seeked => onSeeked vw vh endTime roi st
  | .tick => st

/-- Run of the `extractFrames` promise over a finite sequence of observed
events. -/
def runExtractEvents (vw vh endTime : ℚ) (roi : Option ROI)
    (events : List SeekEvent) (st : ExtractRun) : ExtractRun :=
  events.foldl (extractEventStep vw vh endTime roi) st

/-! ### Helper lemmas -/

theorem getD_range_map {α : Type _} (f : ℕ → α) (n y : ℕ) (d : α) (h : y < n) :
    ((List.range n).map f).getD y d = f y := by
  rw [List.getD_eq_getElem?_getD, List.getElem?_map, List.getElem?_range h]
  rfl

theorem gridGet_zeroGrid {gh gw y x : ℕ} (hy : y < gh) (hx : x < gw) :
    gridGet (zeroGrid gh gw) y x = vzero := by
  unfold gridGet zeroGrid
  rw [getD_range_map _ _ _ _ hy, getD_range_map _ _ _ _ hx]

theorem gridGet_addGrid {gh gw y x : ℕ} (A B : List (List Vec))
    (hy : y < gh) (hx : x < gw) :
    gridGet (addGrid gh gw A B) y x = vadd (gridGet A y x) (gridGet B y x) := by
  unfold gridGet addGrid
  rw [getD_range_map _ _ _ _ hy, getD_range_map _ _ _ _ hx]
  rfl

theorem gridGet_foldl_addGrid_replicate {gh gw y x : ℕ} (G : List (List Vec))
    (hy : y < gh) (hx : x < gw) :
    ∀ (n : ℕ) (A : List (List Vec)),
      gridGet (List.foldl (addGrid gh gw) A (List.replicate n G)) y x =
        ⟨(gridGet A y x).u + n * (gridGet G y x).u,
         (gridGet A y x).v + n * (gridGet G y x).v⟩ := by
  intro n
  induction n with
  | zero => intro A; simp
  | succ m ih =>
    intro A
    rw [List.replicate_succ, List.foldl_cons, ih, gridGet_addGrid A G hy hx]
    simp [vadd]
    constructor <;> ring

theorem runPairs_replicate {gw gh : ℕ} (flat : List Vec)
    (hl : flat.length = gw * gh) (n : ℕ) :
    runPairs gw gh (List.replicate n flat) = .ok (List.replicate n (reshape flat gw gh)) := by
  induction n with
  | zero => rfl
  | succ m ih =>
    rw [List.replicate_succ, runPairs, calculateVectorField, if_neg (by omega), ih,
      List.replicate_succ]

theorem reshape_length (flat : List Vec) (gw gh : ℕ) :
    (reshape flat gw gh).length = gh := by
  simp [reshape]

theorem reshape_row (flat : List Vec) {gw gh y : ℕ} (hy : y < gh) :
    (reshape flat gw gh).getD y [] = (flat.drop (y * gw)).take gw := by
  unfold reshape
  exact getD_range_map _ _ _ _ hy

theorem reshape_row_length (flat : List Vec) {gw gh y : ℕ}
    (hl : flat.length = gw * gh) (hy : y < gh) :
    ((reshape flat gw gh).getD y []).length = gw := by
  rw [reshape_row flat hy]
  simp only [List.length_take, List.length_drop, hl]
  have h1 : y * gw + gw ≤ gw * gh := by
    have h2 : y + 1 ≤ gh := hy
    calc y * gw + gw = (y + 1) * gw := by ring
      _ ≤ gh * gw := Nat.mul_le_mul_right _ h2
      _ = gw * gh := Nat.mul_comm _ _
  omega

theorem gridGet_reshape (flat : List Vec) {gw gh y x : ℕ}
    (hy : y < gh) (hx : x < gw) :
    gridGet (reshape flat gw gh) y x = flat.getD (y * gw + x) vzero := by
  unfold gridGet
  rw [reshape_row flat hy, List.getD_eq_getElem?_getD, List.getD_eq_getElem?_getD,
    List.getElem?_take, List.getElem?_drop, if_pos hx]

theorem map_range_grid_eq {gh gw : ℕ} (G : List (List Vec)) (f : ℕ → ℕ → Vec)
    (hlen : G.length = gh) (hrow : ∀ y < gh, (G.getD y []).length = gw)
    (hf : ∀ y < gh, ∀ x < gw, f y x = gridGet G y x) :
    (List.range gh).map (fun y => (List.range gw).map (fun x => f y x)) = G := by
  apply List.ext_getElem
  · simpa using hlen.symm
  · intro y hy1 hy2
    rw [List.getElem_map, List.getElem_range]
    have hy : y < gh := by simpa using hy1
    apply List.ext_getElem
    · rw [List.length_map, List.length_range]
      have h3 := hrow y hy
      rw [List.getD_eq_getElem _ _ hy2] at h3
      exact h3.symm
    · intro x hx1 hx2
      rw [List.getElem_map, List.getElem_range]
      have hx : x < gw := by simpa using hx1
      rw [hf y hy x hx]
      unfold gridGet
      rw [List.getD_eq_getElem _ _ hy2, List.getD_eq_getElem _ _ hx2]

theorem pairsOf_length {F : Type} (frames : List F) :
    (pairsOf frames).length = frames.length - 1 := by
  simp [pairsOf]

/-! ### Claim theorems -/

/-- C1: for every grid size and every frame sequence of at least 2 frames,
if the injected flow estimator returns the same (validated, reshaped) grid
`G` for every consecutive frame pair, then the aggregation — element-wise
vector sum of all per-pair grids followed by dividing every cell by the
pair count — returns the grid `G` unchanged. -/
theorem aggregate_constant_estimator {F : Type} (frames : List F) (gw gh : ℕ)
    (flat : List Vec) (est : F → F → List Vec)
    (h2 : 2 ≤ frames.length) (hl : flat.length = gw * gh)
    (hest : ∀ a b, est a b = flat) :
    aggregate frames gw gh est = .ok (reshape flat gw gh) := by
  have hmap : estimatesOf frames est = List.replicate (pairsOf frames).length flat := by
    rw [estimatesOf, List.eq_replicate_iff]
    refine ⟨by simp, ?_⟩
    intro b hb
    rcases List.mem_map.mp hb with ⟨p, _, hp⟩
    rw [← hp, hest]
  have hn : 1 ≤ (pairsOf frames).length := by
    rw [pairsOf_length]
    omega
  unfold aggregate
  rw [if_neg (by omega), hmap]
  simp only [runPairs_replicate flat hl]
  have hcast : ((pairsOf frames).length : ℚ) ≠ 0 := by
    exact_mod_cast Nat.one_le_iff_ne_zero.mp hn
  unfold averageFields divideGrid
  rw [List.length_replicate]
  congr 1
  apply map_range_grid_eq
  · exact reshape_length flat gw gh
  · intro y hy
    exact reshape_row_length flat hl hy
  · intro y hy x hx
    rw [gridGet_foldl_addGrid_replicate _ hy hx _ (zeroGrid gh gw), gridGet_zeroGrid hy hx]
    show (⟨_, _⟩ : Vec) = _
    rcases gridGet (reshape flat gw gh) y x with ⟨u, v⟩
    simp only [vzero, Vec.mk.injEq]
    constructor <;> field_simp

/-- C2: for every calculation request in which frame extraction yields
fewer than 2 frames, the calculation fails with the
`InsufficientFramesError`, whose message tells the caller to select a
longer clip, and no velocity grid is produced (the result is an error,
not a grid). -/
theorem insufficient_frames_rejected (vw vh s e : ℚ) (roi : Option ROI)
    (gw gh : ℕ) (est : Capture → Capture → List Vec)
    (h : (extractFrames vw vh s e roi).length < 2) :
    calculateFlowAndGenerateFiles vw vh s e roi gw gh est =
      .error (.insufficientFrames insufficientFramesMsg) ∧
    insufficientFramesMsg =
      "Not enough frames extracted to perform analysis. Please select a longer clip." ∧
    ∃ pre post, insufficientFramesMsg = pre ++ "select a longer clip" ++ post := by
  refine ⟨?_, rfl,
    "Not enough frames extracted to perform analysis. Please ", ".", by decide⟩
  simp only [calculateFlowAndGenerateFiles, aggregate, if_pos h]

theorem runPairs_first_malformed (gw gh : ℕ) :
    ∀ (ests : List (List Vec)) (i : ℕ), i < ests.length →
      (ests.getD i []).length ≠ gw * gh →
      (∀ j < i, (ests.getD j []).length = gw * gh) →
      runPairs gw gh ests = .error (.malformedEstimate (gw * gh) (ests.getD i []).length)
  | [], i, hi, _, _ => absurd hi (by simp)
  | flat :: rest, 0, _, hbad, _ => by
    have hbad0 : flat.length ≠ gw * gh := by simpa using hbad
    simp only [runPairs, calculateVectorField, if_pos hbad0, List.getD_cons_zero]
  | flat :: rest, i + 1, hi, hbad, hgood => by
    have hhead : flat.length = gw * gh := by simpa using hgood 0 (Nat.succ_pos i)
    have hi2 : i < rest.length := by simpa using hi
    have hbad2 : (rest.getD i []).length ≠ gw * gh := by simpa using hbad
    have hgood2 : ∀ j < i, (rest.getD j []).length = gw * gh := by
      intro j hj
      simpa using hgood (j + 1) (by omega)
    have hrec := runPairs_first_malformed gw gh rest i hi2 hbad2 hgood2
    have hcvf : calculateVectorField flat gw gh = .ok (reshape flat gw gh) := by
      simp [calculateVectorField, hhead]
    simp only [runPairs, hcvf, hrec, List.getD_cons_succ]

/-- C3: a flow-estimation result whose length differs from
`gridWidth*gridHeight` makes the per-pair estimation fail with the
`MalformedEstimateError` carrying the expected count (`gridWidth*gridHeight`)
and the actual count, and — when it is the first malformed pair the
sequential loop meets — that same error is the result of the overall
aggregation (it propagates, with no retry of the pair). -/
theorem malformed_estimate_propagates :
    (∀ (flat : List Vec) (gw gh : ℕ), flat.length ≠ gw * gh →
       calculateVectorField flat gw gh =
         .error (.malformedEstimate (gw * gh) flat.length)) ∧
    (∀ (F : Type) (frames : List F) (gw gh : ℕ) (est : F → F → List Vec) (i : ℕ),
       i < (estimatesOf frames est).length →
       ((estimatesOf frames est).getD i []).length ≠ gw * gh →
       (∀ j < i, ((estimatesOf frames est).getD j []).length = gw * gh) →
       aggregate frames gw gh est =
         .error (.malformedEstimate (gw * gh)
           ((estimatesOf frames est).getD i []).length)) := by
  constructor
  · intro flat gw gh hbad
    simp only [calculateVectorField, if_pos hbad]
  · intro F frames gw gh est i hi hbad hgood
    have hlen : (estimatesOf frames est).length = frames.length - 1 := by
      rw [estimatesOf, List.length_map, pairsOf_length]
    have h2 : ¬ frames.length < 2 := by omega
    simp only [aggregate, if_neg h2,
      runPairs_first_malformed gw gh (estimatesOf frames est) i hi hbad hgood]

/-- C4: every `VelocityGrid` produced from a validated flat estimator
result of length `gridWidth*gridHeight` has exactly `gridHeight` rows,
every row has exactly `gridWidth` entries, the cell at row `y`, column `x`
is the flat element at index `y*gridWidth + x` (row-major, top-left
origin), and the averaged grid has the same `gridHeight × gridWidth`
shape. -/
theorem velocity_grid_shape (flat : List Vec) (gw gh : ℕ)
    (hl : flat.length = gw * gh) :
    (reshape flat gw gh).length = gh ∧
    (∀ y < gh, ((reshape flat gw gh).getD y []).length = gw) ∧
    (∀ y < gh, ∀ x < gw,
      gridGet (reshape flat gw gh) y x = flat.getD (y * gw + x) vzero) ∧
    (∀ fields : List (List (List Vec)),
      (averageFields gh gw fields).length = gh ∧
      ∀ y < gh, ((averageFields gh gw fields).getD y []).length = gw) := by
  refine ⟨reshape_length flat gw gh,
    fun y hy => reshape_row_length flat hl hy,
    fun y hy x hx => gridGet_reshape flat hy hx,
    fun fields => ⟨by simp [averageFields, divideGrid], fun y hy => ?_⟩⟩
  unfold averageFields divideGrid
  rw [getD_range_map _ _ _ _ hy]
  simp

theorem le_foldl_max_row (l : List Vec) :
    ∀ m : ℚ, m ≤ l.foldl (fun a v => max a (mag2 v)) m := by
  induction l with
  | nil => intro m; simp
  | cons v vs ih =>
    intro m
    rw [List.foldl_cons]
    exact le_trans (le_max_left m (mag2 v)) (ih _)

theorem mem_le_foldl_max_row (l : List Vec) :
    ∀ (m : ℚ) (v : Vec), v ∈ l → mag2 v ≤ l.foldl (fun a w => max a (mag2 w)) m := by
  induction l with
  | nil => intro m v hv; simp at hv
  | cons w ws ih =>
    intro m v hv
    rw [List.foldl_cons]
    rcases List.mem_cons.mp hv with rfl | hv2
    · exact le_trans (le_max_right m (mag2 v)) (le_foldl_max_row ws _)
    · exact ih _ v hv2

theorem le_foldl_max_grid (grid : List (List Vec)) :
    ∀ m : ℚ, m ≤ grid.foldl (fun m row => row.foldl (fun a v => max a (mag2 v)) m) m := by
  induction grid with
  | nil => intro m; simp
  | cons row rows ih =>
    intro m
    rw [List.foldl_cons]
    exact le_trans (le_foldl_max_row row m) (ih _)

theorem cell_le_maxFold (grid : List (List Vec)) :
    ∀ (m : ℚ) (row : List Vec), row ∈ grid → ∀ v ∈ row,
      mag2 v ≤ grid.foldl (fun m row => row.foldl (fun a v => max a (mag2 v)) m) m := by
  induction grid with
  | nil => intro m row hrow; simp at hrow
  | cons r rs ih =>
    intro m row hrow v hv
    rw [List.foldl_cons]
    rcases List.mem_cons.mp hrow with rfl | hrow2
    · exact le_trans (mem_le_foldl_max_row row m v hv) (le_foldl_max_grid rs _)
    · exact ih _ row hrow2 v hv

theorem maxMag2_nonneg (grid : List (List Vec)) : 0 ≤ maxMag2 grid :=
  le_foldl_max_grid grid 0

/-- C6: the renderer first computes the maximum magnitude over all cells
of the grid (modelled on squared magnitudes, which the source's monotone
`Math.sqrt` preserves), replaces it by 1 exactly when it is 0 (the
all-zero grid), and the resulting normalization divisor is strictly
positive — subsequent magnitude normalizations never divide by zero. -/
theorem max_magnitude_never_zero (grid : List (List Vec)) :
    0 < effectiveMaxMag2 grid ∧
    (∀ row ∈ grid, ∀ v ∈ row, mag2 v ≤ maxMag2 grid) ∧
    (maxMag2 grid = 0 → effectiveMaxMag2 grid = 1) := by
  refine ⟨?_, fun row hrow v hv => cell_le_maxFold grid 0 row hrow v hv, ?_⟩
  · unfold effectiveMaxMag2
    split_ifs with h
    · norm_num
    · exact lt_of_le_of_ne (maxMag2_nonneg grid) (Ne.symm h)
  · intro h
    unfold effectiveMaxMag2
    rw [if_pos h]

theorem mem_strideIdx (bound step k : ℕ) :
    k ∈ strideIdx bound step ↔ k < bound ∧ k % step = 0 := by
  simp [strideIdx]

theorem mem_drawnCells (grid : List (List Vec)) (density : ℚ) (y x : ℕ) :
    (y, x) ∈ drawnCells grid density ↔
      y < grid.length ∧ x < (grid.headD []).length ∧
      y % (vectorStep density).toNat = 0 ∧ x % (vectorStep density).toNat = 0 ∧
      ¬ mag2 (gridGet grid y x) < eps2 := by
  unfold drawnCells
  rw [List.mem_flatMap]
  constructor
  · rintro ⟨a, ha, hmem⟩
    rw [List.mem_filterMap] at hmem
    rcases hmem with ⟨b, hb, heq⟩
    by_cases h : mag2 (gridGet grid a b) < eps2
    · rw [if_pos h] at heq
      exact absurd heq (by simp)
    · rw [if_neg h] at heq
      have h2 := Option.some.inj heq
      rw [Prod.mk.injEq] at h2
      obtain ⟨rfl, rfl⟩ := h2
      rw [mem_strideIdx] at ha hb
      exact ⟨ha.1, hb.1, ha.2, hb.2, h⟩
  · rintro ⟨h1, h2, h3, h4, h5⟩
    refine ⟨y, (mem_strideIdx _ _ _).mpr ⟨h1, h3⟩,
      List.mem_filterMap.mpr ⟨x, (mem_strideIdx _ _ _).mpr ⟨h2, h4⟩, ?_⟩⟩
    rw [if_neg h5]

theorem mem_claimedDrawnCells (grid : List (List Vec)) (density : ℚ) (y x : ℕ) :
    (y, x) ∈ claimedDrawnCells grid density ↔
      y < grid.length ∧ x < (grid.headD []).length ∧
      y % (claimedStep ((grid.headD []).length : ℚ) density).toNat = 0 ∧
      x % (claimedStep ((grid.headD []).length : ℚ) density).toNat = 0 ∧
      mag2 (gridGet grid y x) > eps2 := by
  unfold claimedDrawnCells
  rw [List.mem_flatMap]
  constructor
  · rintro ⟨a, ha, hmem⟩
    rw [List.mem_filterMap] at hmem
    rcases hmem with ⟨b, hb, heq⟩
    by_cases h : mag2 (gridGet grid a b) > eps2
    · rw [if_pos h] at heq
      have h2 := Option.some.inj heq
      rw [Prod.mk.injEq] at h2
      obtain ⟨rfl, rfl⟩ := h2
      rw [mem_strideIdx] at ha hb
      exact ⟨ha.1, hb.1, ha.2, hb.2, h⟩
    · rw [if_neg h] at heq
      exact absurd heq (by simp)
  · rintro ⟨h1, h2, h3, h4, h5⟩
    refine ⟨y, (mem_strideIdx _ _ _).mpr ⟨h1, h3⟩,
      List.mem_filterMap.mpr ⟨x, (mem_strideIdx _ _ _).mpr ⟨h2, h4⟩, ?_⟩⟩
    rw [if_pos h5]

theorem vectorStep_at_ten : vectorStep 10 = 2 := by
  have h1 : (GRID_WIDTH / 10 + 1 / 2 : ℚ) = 5 / 2 := by
    norm_num [GRID_WIDTH]
  have h2 : ⌊(5 / 2 : ℚ)⌋ = 2 := by
    rw [Int.floor_eq_iff]
    norm_num
  unfold vectorStep jsRound
  rw [h1, h2]
  omega

theorem claimedStep_forty_ten : claimedStep 40 10 = 4 := by
  have h1 : ((40 : ℚ) / 10 + 1 / 2 : ℚ) = 9 / 2 := by norm_num
  have h2 : ⌊(9 / 2 : ℚ)⌋ = 4 := by
    rw [Int.floor_eq_iff]
    norm_num
  unfold claimedStep jsRound
  rw [h1, h2]
  omega

/-- C5 counterexample: with the app-level constant `GRID_WIDTH = 20`, on a
1 × 40 grid of unit vectors at density 10 the renderer visits cell
`(0, 2)` (its stride is `max(1, round(20/10)) = 2`) and draws an arrow
there, while the claim's stride `max(1, round(40/10)) = 4`, computed from
the rendered grid's width, would skip that cell — the set of drawn cells
differs from the claimed one. -/
theorem vector_stride_counterexample :
    (0, 2) ∈ drawnCells [List.replicate 40 (⟨1, 0⟩ : Vec)] 10 ∧
    (0, 2) ∉ claimedDrawnCells [List.replicate 40 (⟨1, 0⟩ : Vec)] 10 := by
  have hget : gridGet [List.replicate 40 (⟨1, 0⟩ : Vec)] 0 2 = ⟨1, 0⟩ := by
    simp [gridGet, List.getD_eq_getElem?_getD, List.getElem?_replicate]
  constructor
  · rw [mem_drawnCells]
    refine ⟨by norm_num, by simp, ?_, ?_, ?_⟩
    · rw [vectorStep_at_ten]
      decide
    · rw [vectorStep_at_ten]
      decide
    · rw [hget]
      norm_num [mag2, eps2]
  · rw [mem_claimedDrawnCells]
    rintro ⟨-, -, -, h4, -⟩
    have hw : (([List.replicate 40 (⟨1, 0⟩ : Vec)].headD []).length : ℚ) = 40 := by simp
    rw [hw, claimedStep_forty_ten] at h4
    simp at h4

/-- C5 (amended): the vector renderer draws an arrow exactly at the cells
`(y, x)` inside the grid whose two indices are multiples of the stride
`max(1, round(GRID_WIDTH/density))` — computed from the app-level
constant `GRID_WIDTH`, not from the width of the grid being rendered —
and whose magnitude is not below the near-zero threshold 1e-6. -/
theorem vector_renderer_drawn_cells (grid : List (List Vec)) (density : ℚ) (y x : ℕ) :
    (y, x) ∈ drawnCells grid density ↔
      y < grid.length ∧ x < (grid.headD []).length ∧
      y % (vectorStep density).toNat = 0 ∧ x % (vectorStep density).toNat = 0 ∧
      ¬ mag2 (gridGet grid y x) < eps2 :=
  mem_drawnCells grid density y x

theorem framesCount_one_interval (s : ℚ) : framesCount s (s + 1 / 30) = 1 := by
  unfold framesCount
  have h1 : (s + 1 / 30 - s) * 30 = 1 := by ring
  rw [h1]
  norm_num

/-- C7: the preview image of every calculation request is the uncropped
first frame of the selected range: the dedicated preview extraction runs
from `startTime` to `startTime + 1/30` with `roi = null` and yields
exactly one capture, taken at `startTime` with the full-frame rectangle
`(0, 0, videoWidth, videoHeight)`, and whenever the calculation succeeds
its result carries that capture as the preview, whatever ROI the analysis
frames used. -/
theorem preview_frame_uncropped (vw vh s : ℚ) :
    extractFrames vw vh s (s + 1 / 30) none = [⟨s, 0, 0, vw, vh⟩] ∧
    ∀ (e : ℚ) (roi : Option ROI) (gw gh : ℕ) (est : Capture → Capture → List Vec)
      (res : List (List Vec) × Capture),
      calculateFlowAndGenerateFiles vw vh s e roi gw gh est = .ok res →
      res.2 = ⟨s, 0, 0, vw, vh⟩ := by
  have hext : extractFrames vw vh s (s + 1 / 30) none = [⟨s, 0, 0, vw, vh⟩] := by
    unfold extractFrames
    rw [framesCount_one_interval]
    have hr : List.range 1 = [0] := rfl
    rw [hr]
    simp [cropRect]
  refine ⟨hext, ?_⟩
  intro e roi gw gh est res hok
  unfold calculateFlowAndGenerateFiles at hok
  rw [hext] at hok
  simp only [List.getD_cons_zero] at hok
  rcases haggr : aggregate (extractFrames vw vh s e roi) gw gh est with err | grid
  · simp only [haggr] at hok
    exact absurd hok (by simp)
  · simp only [haggr] at hok
    have h2 := Except.ok.inj hok
    rw [← h2]

/-- C8: the claim asks for a bounded wait ending in a `StalledSeekError`
when the frame source never becomes ready.  The code installs a handler
for the `seeked` event only; no timer, timeout or cancellation exists, so
when the source never fires `seeked` the extraction promise is unchanged
by any amount of elapsed time — it neither resolves nor rejects (it hangs
pending forever, and no stalled-seek failure is ever produced). -/
theorem stalled_seek_hangs_forever (vw vh endTime : ℚ) (roi : Option ROI)
    (startTime : ℚ) (n : ℕ) :
    runExtractEvents vw vh endTime roi (List.replicate n .tick)
        (initExtractRun startTime) = initExtractRun startTime ∧
    (initExtractRun startTime).settled = none := by
  refine ⟨?_, rfl⟩
  induction n with
  | zero => rfl
  | succ m ih =>
    rw [List.replicate_succ]
    show runExtractEvents vw vh endTime roi (List.replicate m .tick) (initExtractRun startTime) = _
    exact ih

/-- C9 counterexample: after a drag whose rectangle is degenerate
(width 1/200 ≤ 0.01), the ROI state is not "no ROI": the previously
selected ROI is still in place. -/
theorem roi_degenerate_drag_counterexample :
    roiAfterMouseUp (some ⟨1/10, 1/10, 1/2, 1/2⟩) (some ⟨1/5, 1/5, 1/200, 2/5⟩) =
      some ⟨1/10, 1/10, 1/2, 1/2⟩ ∧
    roiAfterMouseUp (some ⟨1/10, 1/10, 1/2, 1/2⟩) (some ⟨1/5, 1/5, 1/200, 2/5⟩) ≠
      none := by
  have h : roiAfterMouseUp (some ⟨1/10, 1/10, 1/2, 1/2⟩) (some ⟨1/5, 1/5, 1/200, 2/5⟩) =
      some ⟨1/10, 1/10, 1/2, 1/2⟩ := by
    show (if ((1/200 : ℚ) > 1/100 ∧ (2/5 : ℚ) > 1/100) then
        some (⟨1/5, 1/5, 1/200, 2/5⟩ : ROI)
      else some ⟨1/10, 1/10, 1/2, 1/2⟩) = some ⟨1/10, 1/10, 1/2, 1/2⟩
    rw [if_neg]
    rintro ⟨h1, -⟩
    norm_num at h1
  exact ⟨h, by rw [h]; simp⟩

/-- C9 (amended): a completed drag whose rectangle has width or height at
or below the 0.01 epsilon is rejected — `setRoi` is not invoked — so the
ROI state keeps whatever value it had before the drag (in particular it is
"no ROI" only when no ROI was selected before). -/
theorem roi_degenerate_drag_rejected (prior : Option ROI) (r : ROI)
    (h : r.width ≤ 1 / 100 ∨ r.height ≤ 1 / 100) :
    roiAfterMouseUp prior (some r) = prior := by
  show (if r.width > 1 / 100 ∧ r.height > 1 / 100 then some r else prior) = prior
  rw [if_neg]
  rintro ⟨h1, h2⟩
  rcases h with h | h
  · linarith
  · linarith

/-- C9 witness. -/
theorem roi_degenerate_drag_rejected_witness :
    roiAfterMouseUp none (some ⟨0, 0, 1/200, 1/2⟩) = none :=
  roi_degenerate_drag_rejected none ⟨0, 0, 1/200, 1/2⟩ (Or.inl (by norm_num))

/-- C10: the clip-selection state keeps the invariant
`0 ≤ startTime < endTime ≤ duration` and
`endTime - startTime ≤ MAX_CLIP_DURATION_S` across every start-time or
end-time slider change (slider values are bounded to `[0, duration]`): a
change that would exceed the duration bound auto-adjusts the opposite
endpoint, a change that would make the interval empty or negative is
ignored; and the calculation entry point independently rejects any request
whose duration is not in `(0, MAX_CLIP_DURATION_S]`. -/
theorem clip_selection_invariant (d : ℚ) (st : ClipState) (ns ne s e : ℚ)
    (hinv : clipInvariant d st) (hns0 : 0 ≤ ns) (_hnsd : ns ≤ d)
    (_hne0 : 0 ≤ ne) (hned : ne ≤ d) :
    clipInvariant d (handleStartTimeChange d st ns) ∧
    clipInvariant d (handleEndTimeChange st ne) ∧
    (¬ (0 < e - s ∧ e - s ≤ MAX_CLIP_DURATION_S) →
      handleCalculationGuard s e = some clipDurationErrorMsg) := by
  obtain ⟨h0, h1, h2, h3⟩ := hinv
  refine ⟨?_, ?_, ?_⟩
  · unfold handleStartTimeChange
    split_ifs with hlt hmax
    · refine ⟨hns0, ?_, min_le_left _ _, ?_⟩
      · exact lt_min (lt_of_lt_of_le hlt h2) (by unfold MAX_CLIP_DURATION_S; linarith)
      · have h4 := min_le_right d (ns + MAX_CLIP_DURATION_S)
        show min d (ns + MAX_CLIP_DURATION_S) - ns ≤ MAX_CLIP_DURATION_S
        linarith
    · exact ⟨hns0, hlt, h2, by push_neg at hmax; exact hmax⟩
    · exact ⟨h0, h1, h2, h3⟩
  · unfold handleEndTimeChange
    split_ifs with hgt hmax
    · refine ⟨le_max_left _ _, ?_, hned, ?_⟩
      · apply max_lt
        · linarith
        · unfold MAX_CLIP_DURATION_S
          linarith
      · have h4 := le_max_right 0 (ne - MAX_CLIP_DURATION_S)
        show ne - max 0 (ne - MAX_CLIP_DURATION_S) ≤ MAX_CLIP_DURATION_S
        linarith
    · exact ⟨h0, hgt, hned, by push_neg at hmax; exact hmax⟩
    · exact ⟨h0, h1, h2, h3⟩
  · intro hbad
    unfold handleCalculationGuard
    rw [if_pos]
    rcases le_or_lt (e - s) 0 with h | h
    · exact Or.inl h
    · right
      by_contra h5
      push_neg at h5
      exact hbad ⟨by linarith, h5⟩

/-- C10 witness. -/
theorem clip_selection_invariant_witness :
    clipInvariant 10 (handleStartTimeChange 10 ⟨0, 5⟩ 1) ∧
    clipInvariant 10 (handleEndTimeChange ⟨0, 5⟩ 7) ∧
    handleCalculationGuard 0 7 = some clipDurationErrorMsg := by
  have h := clip_selection_invariant 10 ⟨0, 5⟩ 1 7 0 7
    (by constructor <;> norm_num [MAX_CLIP_DURATION_S])
    (by norm_num) (by norm_num) (by norm_num) (by norm_num)
  exact ⟨h.1, h.2.1, h.2.2 (by norm_num [MAX_CLIP_DURATION_S])⟩

/-- C1 witness. -/
theorem aggregate_constant_estimator_witness :
    aggregate [0, 1, 2] 2 1 (fun _ _ : ℕ => [⟨1, 2⟩, ⟨3, 4⟩]) =
      .ok (reshape [⟨1, 2⟩, ⟨3, 4⟩] 2 1) :=
  aggregate_constant_estimator [0, 1, 2] 2 1 [⟨1, 2⟩, ⟨3, 4⟩] _
    (by decide) (by decide) (fun _ _ => rfl)

/-- C2 witness. -/
theorem insufficient_frames_rejected_witness :
    calculateFlowAndGenerateFiles 640 480 0 0 none 2 2 (fun _ _ => []) =
      .error (.insufficientFrames insufficientFramesMsg) ∧
    insufficientFramesMsg =
      "Not enough frames extracted to perform analysis. Please select a longer clip." ∧
    ∃ pre post, insufficientFramesMsg = pre ++ "select a longer clip" ++ post :=
  insufficient_frames_rejected 640 480 0 0 none 2 2 (fun _ _ => [])
    (by norm_num [extractFrames, framesCount])

/-- C3 witness. -/
theorem malformed_estimate_propagates_witness :
    calculateVectorField [⟨1, 0⟩] 2 3 = .error (.malformedEstimate 6 1) ∧
    aggregate [0, 1] 2 3 (fun _ _ : ℕ => [⟨1, 0⟩]) =
      .error (.malformedEstimate 6 1) :=
  ⟨malformed_estimate_propagates.1 [⟨1, 0⟩] 2 3 (by decide),
   malformed_estimate_propagates.2 ℕ [0, 1] 2 3 (fun _ _ => [⟨1, 0⟩]) 0
     (by decide) (by decide) (by decide)⟩

/-- C4 witness. -/
theorem velocity_grid_shape_witness :
    (reshape [⟨1, 2⟩, ⟨3, 4⟩, ⟨5, 6⟩, ⟨7, 8⟩, ⟨9, 10⟩, ⟨11, 12⟩] 3 2).length = 2 ∧
    gridGet (reshape [⟨1, 2⟩, ⟨3, 4⟩, ⟨5, 6⟩, ⟨7, 8⟩, ⟨9, 10⟩, ⟨11, 12⟩] 3 2) 1 1 =
      ([⟨1, 2⟩, ⟨3, 4⟩, ⟨5, 6⟩, ⟨7, 8⟩, ⟨9, 10⟩, ⟨11, 12⟩].getD (1 * 3 + 1) vzero : Vec) := by
  have h := velocity_grid_shape [⟨1, 2⟩, ⟨3, 4⟩, ⟨5, 6⟩, ⟨7, 8⟩, ⟨9, 10⟩, ⟨11, 12⟩] 3 2
    (by decide)
  exact ⟨h.1, h.2.2.1 1 (by decide) 1 (by decide)⟩

/-- C6 witness. -/
theorem max_magnitude_never_zero_witness :
    0 < effectiveMaxMag2 [[⟨3, 4⟩, ⟨0, 1⟩]] ∧
    mag2 ⟨0, 1⟩ ≤ maxMag2 [[⟨3, 4⟩, ⟨0, 1⟩]] := by
  have h := max_magnitude_never_zero [[⟨3, 4⟩, ⟨0, 1⟩]]
  exact ⟨h.1, h.2.1 [⟨3, 4⟩, ⟨0, 1⟩] (by simp) ⟨0, 1⟩ (by simp)⟩

/-- C7 witness. -/
theorem preview_frame_uncropped_witness :
    extractFrames 1 1 0 (0 + 1 / 30) none = [⟨0, 0, 0, 1, 1⟩] ∧
    (([[⟨1, 0⟩]], (⟨0, 0, 0, 1, 1⟩ : Capture)) : List (List Vec) × Capture).2 =
      ⟨0, 0, 0, 1, 1⟩ := by
  have h := preview_frame_uncropped 1 1 0
  refine ⟨h.1, h.2 (1 / 15) none 1 1 (fun _ _ => [⟨1, 0⟩]) _ ?_⟩
  have hfc : framesCount 0 (1 / 15) = 2 := by
    unfold framesCount
    have h1 : ((1 : ℚ) / 15 - 0) * 30 = ((2 : ℤ) : ℚ) := by norm_num
    rw [h1, Int.ceil_intCast]
    rfl
  have hext2 : extractFrames 1 1 0 (1 / 15) none =
      [⟨0, 0, 0, 1, 1⟩, ⟨1 / 30, 0, 0, 1, 1⟩] := by
    unfold extractFrames
    rw [hfc]
    have hr : List.range 2 = [0, 1] := rfl
    rw [hr]
    simp [cropRect]
  have haggr2 : aggregate (extractFrames 1 1 0 (1 / 15) none) 1 1
      (fun _ _ => [⟨1, 0⟩]) = .ok (averageFields 1 1 [reshape [⟨1, 0⟩] 1 1]) := by
    rw [hext2]
    rfl
  have havg : averageFields 1 1 [reshape [⟨1, 0⟩] 1 1] = [[⟨1, 0⟩]] := by
    norm_num [averageFields, divideGrid, addGrid, zeroGrid, reshape, gridGet,
      vadd, vzero, List.range_succ, List.range_zero]
  unfold calculateFlowAndGenerateFiles
  rw [h.1]
  simp only [haggr2, havg, List.getD_cons_zero]

end VideoFlowCfd
